import Mathlib

/-!
Shallow embedding of the evolution-postgres-backup job queue, worker and
scheduler (Go sources), together with proofs about the embedded code.

Conventions:
* machine time instants (`time.Time`, `TIMESTAMP WITH TIME ZONE`) are `Nat`
  values (seconds); the loader's 5-minute staleness window is 300 seconds;
* Go `string` is `String`; a nullable column or pointer is `Option _`;
* external effects (database round trips, `pg_dump`, object-store calls) are
  threaded explicitly: outcome oracles are inputs, issued calls are recorded
  in trace fields of the result.
-/

namespace EvoBackup

/-- Decidable equality for `Except` results (component-wise). -/
instance instDecEqExcept {ε α : Type} [DecidableEq ε] [DecidableEq α] :
    DecidableEq (Except ε α) := fun a b => by
  cases a with
  | error e =>
    cases b with
    | error f =>
      exact if h : e = f then isTrue (by rw [h]) else isFalse (fun hh => h (by injection hh))
    | ok y => exact isFalse (fun hh => Except.noConfusion hh)
  | ok x =>
    cases b with
    | error f => exact isFalse (fun hh => Except.noConfusion hh)
    | ok y =>
      exact if h : x = y then isTrue (by rw [h]) else isFalse (fun hh => h (by injection hh))

/-- Job types (`JobType` constants, worker queue source). -/
inductive JobType
  | backup
  | restore
  | cleanup
  deriving DecidableEq, Repr, BEq

/-- Job execution statuses (`JobStatus` constants, worker queue source). -/
inductive JobStatus
  | pending
  | running
  | completed
  | failed
  | retrying
  deriving DecidableEq, Repr, BEq

/-- The string the application writes for a job status
(`string(job.Status)` in `persistJob` / `updateJobStatus`). -/
def JobStatus.toDb : JobStatus → String
  | .pending => "pending"
  | .running => "running"
  | .completed => "completed"
  | .failed => "failed"
  | .retrying => "retrying"

/-- Backup statuses (`BackupStatus` constants in `internal/models/backup.go`). -/
inductive BackupStatus
  | pending
  | inProgress
  | completed
  | failed
  deriving DecidableEq, Repr, BEq

/-- The keys of the job payload map (`map[string]interface{}`) that the code
reads; a missing key or a failed string type assertion is `none`. -/
structure Payload where
  postgresId   : Option String
  databaseName : Option String
  backupType   : Option String
  backupId     : Option String
  deriving DecidableEq, Repr, BEq

/-- In-memory `Job` (worker queue source). -/
structure Job where
  id          : String
  type        : JobType
  status      : JobStatus
  priority    : Int
  payload     : Payload
  retryCount  : Nat
  maxRetries  : Nat
  createdAt   : Nat
  startedAt   : Option Nat
  completedAt : Option Nat
  error       : String
  workerId    : String
  deriving DecidableEq, Repr, BEq

/-- A row of the `jobs` table (columns of `schema_postgres.sql` that the
queue code reads and writes). -/
structure JobRow where
  id           : String
  type         : JobType
  postgresId   : String
  databaseName : String
  backupId     : String
  priority     : Int
  payloadCol   : Option String
  status       : JobStatus
  retryCount   : Nat
  maxRetries   : Nat
  createdAt    : Nat
  startedAt    : Option Nat
  completedAt  : Option Nat
  errorMessage : String
  deriving DecidableEq, Repr, BEq

/-- `models.BackupInfo`, which is also the shape of a row of the `backups`
table (`backup_repository.go` maps the struct onto the columns 1:1). -/
structure BackupInfo where
  id           : String
  postgresqlId : String
  databaseName : String
  backupType   : String
  status       : BackupStatus
  startTime    : Nat
  endTime      : Option Nat
  filePath     : String
  fileSize     : Int
  jobId        : String
  s3Key        : String
  errorMessage : String
  createdAt    : Nat
  deriving DecidableEq, Repr, BEq

/-- A row of `postgresql_instances` as scanned by `PostgreSQLRepository`. -/
structure PgInstance where
  id        : String
  name      : String
  host      : String
  port      : Int
  username  : String
  password  : String
  databases : List String
  enabled   : Bool
  deriving DecidableEq, Repr, BEq

/-! ### Database loader (`loadJobsFromDatabase`) -/

/-- Eligibility condition of the loader's SELECT:
`status = 'pending' OR status = 'retrying' OR (status = 'running' AND
started_at < NOW() - INTERVAL '5 minutes')`.  A NULL `started_at` makes the
SQL comparison unknown, hence false. -/
def loaderEligible (now : Nat) (r : JobRow) : Bool :=
  r.status == JobStatus.pending || r.status == JobStatus.retrying ||
    (r.status == JobStatus.running &&
      match r.startedAt with
      | some t => decide (t + 300 < now)
      | none => false)

/-- The loader's conditional claim transition:
`UPDATE jobs SET status = 'running', started_at = $1 WHERE id = $2 AND
status = 'pending'`.  `some` is the updated row when the update affects one
row; `none` means zero rows were affected. -/
def claimJobUpdate (now : Nat) (r : JobRow) : Option JobRow :=
  if r.status = JobStatus.pending then
    some { r with status := JobStatus.running, startedAt := some now }
  else
    none

/-- Reconstruction of the in-memory job from a scanned row in
`loadJobsFromDatabase`: the payload is rebuilt from the `postgres_id`,
`database_name` and `backup_id` columns plus the constant `backup_type`
`"manual"`; the stored `payload` column is ignored; the in-memory status is
set to pending. -/
def reconstructJob (r : JobRow) : Job :=
  { id := r.id
    type := r.type
    status := JobStatus.pending
    priority := r.priority
    payload :=
      { postgresId := some r.postgresId
        databaseName := some r.databaseName
        backupId := some r.backupId
        backupType := some "manual" }
    retryCount := r.retryCount
    maxRetries := r.maxRetries
    createdAt := r.createdAt
    startedAt := none
    completedAt := none
    error := ""
    workerId := "" }

/-- Outcome of one iteration of the loader's row loop. -/
inductive LoaderOutcome
  | pushed (j : Job) (r' : JobRow)
  | skipped
  | rolledBack (r' : JobRow)
  deriving DecidableEq, Repr

/-- One iteration of the loader's row loop: claim the row; on zero affected
rows skip it (`continue`); on success push the reconstructed job when the
channel has space, otherwise roll the row back to pending / NULL
`started_at`. -/
def loaderProcessRow (now : Nat) (hasSpace : Bool) (r : JobRow) : LoaderOutcome :=
  match claimJobUpdate now r with
  | none => LoaderOutcome.skipped
  | some r' =>
    if hasSpace then LoaderOutcome.pushed (reconstructJob r) r'
    else LoaderOutcome.rolledBack { r' with status := JobStatus.pending, startedAt := none }

/-! ### Worker dispatch (`processJob`) -/

/-- The in-memory bookkeeping at the start of `processJob`: the worker sets
the job's started-at, running status and worker id under its lock.  No
database write happens here. -/
def processJobStart (job : Job) (workerId : String) (now : Nat) : Job :=
  { job with startedAt := some now, status := JobStatus.running, workerId := workerId }

/-- The terminal bookkeeping at the end of `processJob`: `handlerError` is the
error returned by the type-dispatched handler (`none` on success).  On error
the retry count is incremented and compared (already incremented) with the
max-retries bound to pick retrying versus failed; on success the job is
completed. -/
def processJobOutcome (job : Job) (handlerError : Option String) (now : Nat) : Job :=
  let job0 := { job with completedAt := some now }
  match handlerError with
  | some e =>
    let job1 := { job0 with error := e, retryCount := job0.retryCount + 1 }
    if job1.retryCount < job1.maxRetries then
      { job1 with status := JobStatus.retrying }
    else
      { job1 with status := JobStatus.failed }
  | none => { job0 with status := JobStatus.completed }

/-! ### Backup handler (`processBackupJob`, worker source) -/

/-- Pops the next oracle outcome for a `backupRepo.Update` call; an exhausted
list means the call succeeds. -/
def popRes : List Bool → Bool × List Bool
  | [] => (true, [])
  | b :: rest => (b, rest)

/-- Outcomes of the external interactions of one `processBackupJob` run. -/
structure BackupJobEnv where
  now            : Nat
  tempDirVar     : String
  existingBackup : Option BackupInfo
  createOk       : Bool
  updateResults  : List Bool
  pgInstance     : Option PgInstance
  mkdirOk        : Bool
  dumpError      : Option (String × String)
  statSize       : Option Int
  deriving Repr

/-- What a `processBackupJob` run did: its return value, the final in-memory
backup record, the records written through `backupRepo` (Create/Update), the
object-store uploads it issued and the local files it removed. -/
structure BackupRunTrace where
  result        : Except String Unit
  backup        : Option BackupInfo
  repoWrites    : List BackupInfo
  uploads       : List (String × String)
  localRemovals : List String
  deriving DecidableEq, Repr

/-- Error result helper for the payload-extraction failures. -/
def backupTraceErr (e : String) : BackupRunTrace :=
  { result := Except.error e, backup := none, repoWrites := [],
    uploads := [], localRemovals := [] }

/-- `processBackupJob` (worker source): resolve or create the backup record,
mark it in progress, resolve the instance, build the dump file path, run
`pg_dump`, stat the file, and mark the backup record completed.  The trace
records every `backupRepo` write; note that no object-store upload and no
local-file removal is issued on any path. -/
def processBackupJob (job : Job) (env : BackupJobEnv) : BackupRunTrace :=
  match job.payload.postgresId with
  | none => backupTraceErr "missing postgres_id in job payload"
  | some postgresId =>
  match job.payload.databaseName with
  | none => backupTraceErr "missing database_name in job payload"
  | some databaseName =>
  match job.payload.backupType with
  | none => backupTraceErr "missing backup_type in job payload"
  | some backupTypeStr =>
    -- resolve the backup record: reuse it when the payload carries a
    -- non-empty backup_id, otherwise create a new pending record now
    let creation : Except String (BackupInfo × List BackupInfo) :=
      let newRecord : BackupInfo :=
        { id := "backup_" ++ toString env.now
          postgresqlId := postgresId
          databaseName := databaseName
          backupType := backupTypeStr
          status := BackupStatus.pending
          startTime := env.now
          endTime := none
          filePath := ""
          fileSize := 0
          jobId := job.id
          s3Key := ""
          errorMessage := ""
          createdAt := env.now }
      let created : Except String (BackupInfo × List BackupInfo) :=
        if env.createOk then Except.ok (newRecord, [newRecord])
        else Except.error "failed to create backup record"
      match job.payload.backupId with
      | some backupIdStr =>
        if backupIdStr ≠ "" then
          match env.existingBackup with
          | none => Except.error "failed to get existing backup record"
          | some b => Except.ok ({ b with jobId := job.id }, [])
        else created
      | none => created
    match creation with
    | Except.error e =>
      { result := Except.error e, backup := none, repoWrites := [],
        uploads := [], localRemovals := [] }
    | Except.ok (backup0, writes0) =>
      -- transition to in_progress, refresh the start time, persist
      let backup1 := { backup0 with status := BackupStatus.inProgress, startTime := env.now }
      let (u1, rest1) := popRes env.updateResults
      if !u1 then
        { result := Except.error "failed to update backup status", backup := some backup1,
          repoWrites := writes0, uploads := [], localRemovals := [] }
      else
      let writes1 := writes0 ++ [backup1]
      match env.pgInstance with
      | none =>
        { result := Except.error "failed to get postgres instance", backup := some backup1,
          repoWrites := writes1, uploads := [], localRemovals := [] }
      | some pgInstance =>
      let timestamp := toString backup1.startTime
      let filename := pgInstance.name ++ "_Postgres_1_" ++ databaseName ++ "_"
        ++ backupTypeStr ++ "_" ++ timestamp ++ ".sql"
      let tempDir := if env.tempDirVar = "" then "/tmp/postgres-backups" else env.tempDirVar
      let localPath := tempDir ++ "/" ++ filename
      if !env.mkdirOk then
        { result := Except.error "failed to create temp directory", backup := some backup1,
          repoWrites := writes1, uploads := [], localRemovals := [] }
      else
      match env.dumpError with
      | some (e, out) =>
        let backup2 := { backup1 with
          status := BackupStatus.failed
          errorMessage := "pg_dump failed: " ++ e ++ "\nOutput: " ++ out
          endTime := some env.now }
        let (u2, _) := popRes rest1
        if !u2 then
          { result := Except.error "failed to update backup record", backup := some backup2,
            repoWrites := writes1, uploads := [], localRemovals := [] }
        else
          { result := Except.error ("pg_dump failed: " ++ e), backup := some backup2,
            repoWrites := writes1 ++ [backup2], uploads := [], localRemovals := [] }
      | none =>
      match env.statSize with
      | none =>
        let backup2 := { backup1 with
          status := BackupStatus.failed
          errorMessage := "failed to get file info"
          endTime := some env.now }
        let (u2, _) := popRes rest1
        if !u2 then
          { result := Except.error "failed to update backup record", backup := some backup2,
            repoWrites := writes1, uploads := [], localRemovals := [] }
        else
          { result := Except.error "failed to get file info", backup := some backup2,
            repoWrites := writes1 ++ [backup2], uploads := [], localRemovals := [] }
      | some size =>
        -- record size and path, then mark completed; the object-store key is
        -- never computed and no upload or local cleanup happens
        let backup2 := { backup1 with fileSize := size, filePath := localPath }
        let backup3 := { backup2 with status := BackupStatus.completed, endTime := some env.now }
        let (u2, _) := popRes rest1
        if !u2 then
          { result := Except.error "failed to update backup record", backup := some backup3,
            repoWrites := writes1, uploads := [], localRemovals := [] }
        else
          { result := Except.ok (), backup := some backup3,
            repoWrites := writes1 ++ [backup3], uploads := [], localRemovals := [] }

/-! ### Restore handler (`processRestoreJob`, worker source) -/

/-- What a `processRestoreJob` run did: its return value, the backup records
it fetched, the object-store downloads it issued and the `psql` invocations
it made. -/
structure RestoreRunTrace where
  result        : Except String Unit
  backupFetches : List String
  downloads     : List (String × String)
  psqlRuns      : List String
  deriving DecidableEq, Repr

/-- `processRestoreJob` (worker source): it extracts `backup_id`,
`postgres_id` and `database_name` from the payload, logs progress, sleeps
three seconds, and returns success.  It never fetches the backup record,
never checks its status, never downloads the artifact and never invokes
`psql`. -/
def processRestoreJob (job : Job) : RestoreRunTrace :=
  match job.payload.backupId with
  | none =>
    { result := Except.error "missing backup_id in job payload",
      backupFetches := [], downloads := [], psqlRuns := [] }
  | some _ =>
  match job.payload.postgresId with
  | none =>
    { result := Except.error "missing postgres_id in job payload",
      backupFetches := [], downloads := [], psqlRuns := [] }
  | some _ =>
  match job.payload.databaseName with
  | none =>
    { result := Except.error "missing database_name in job payload",
      backupFetches := [], downloads := [], psqlRuns := [] }
  | some _ =>
    { result := Except.ok (), backupFetches := [], downloads := [], psqlRuns := [] }

/-! ### Schema check constraints for `jobs.status` -/

/-- The `jobs.status` CHECK constraint of `schema_postgres.sql` (the schema
mounted as the control database's init script):
`CHECK(status IN ('pending', 'running', 'completed', 'failed', 'cancelled'))`. -/
def jobsStatusCheck (s : String) : Bool :=
  s == "pending" || s == "running" || s == "completed" || s == "failed" || s == "cancelled"

/-- The `jobs.status` CHECK constraint of `migrate_add_jobs_table.sql`:
`CHECK(status IN ('pending', 'running', 'completed', 'failed', 'retrying'))`. -/
def jobsStatusCheckMigration (s : String) : Bool :=
  s == "pending" || s == "running" || s == "completed" || s == "failed" || s == "retrying"

/-! ### AddJob (`JobQueue.AddJob` and `persistJob`) -/

/-- Producer-side errors of `AddJob`. -/
inductive AddJobError
  | persistFailed (msg : String)
  | shuttingDown
  | queueFull
  deriving DecidableEq, Repr

/-- The queue-visible state: the rows of the `jobs` table, the buffered
in-memory channel (with its capacity, 1000 in `NewJobQueue`) and whether the
queue context has been cancelled. -/
structure QueueState where
  dbJobs    : List JobRow
  chan      : List Job
  capacity  : Nat
  cancelled : Bool
  deriving Repr

/-- `persistJob`: the INSERT into `jobs`, with `postgres_id`,
`database_name` and `backup_id` extracted from the payload (a missing key
inserts the empty string), a NULL `payload` column, and no `started_at` /
`completed_at` / `error_message` values. -/
def persistRow (job : Job) : JobRow :=
  { id := job.id
    type := job.type
    postgresId := job.payload.postgresId.getD ""
    databaseName := job.payload.databaseName.getD ""
    backupId := job.payload.backupId.getD ""
    priority := job.priority
    payloadCol := none
    status := job.status
    retryCount := job.retryCount
    maxRetries := job.maxRetries
    createdAt := job.createdAt
    startedAt := none
    completedAt := none
    errorMessage := "" }

/-- The defaulting prologue of `AddJob`: generate an id when unset, default
`created_at` when zero, default `max_retries` to 3 when zero, and force the
status to pending. -/
def normalizeJob (job0 : Job) (genId : String) (now : Nat) : Job :=
  let j1 := if job0.id = "" then { job0 with id := genId } else job0
  let j2 := if j1.createdAt = 0 then { j1 with createdAt := now } else j1
  let j3 := if j2.maxRetries = 0 then { j2 with maxRetries := 3 } else j2
  { j3 with status := JobStatus.pending }

/-- `AddJob`: normalize the job, persist it (an INSERT failure returns
immediately), then do the non-blocking select on the channel send, the
context-done channel and the default case.  `chooseDone` resolves the select
nondeterminism when both the send and the done case are ready. -/
def addJob (q : QueueState) (job0 : Job) (genId : String) (now : Nat)
    (persistErr : Option String) (chooseDone : Bool) :
    Except AddJobError Job × QueueState :=
  let job := normalizeJob job0 genId now
  match persistErr with
  | some e => (Except.error (AddJobError.persistFailed e), q)
  | none =>
    let q1 : QueueState := { q with dbJobs := q.dbJobs ++ [persistRow job] }
    if q1.chan.length < q1.capacity then
      if q1.cancelled && chooseDone then (Except.error AddJobError.shuttingDown, q1)
      else (Except.ok job, { q1 with chan := q1.chan ++ [job] })
    else if q1.cancelled then (Except.error AddJobError.shuttingDown, q1)
    else (Except.error AddJobError.queueFull, q1)

/-! ### Retention cleanup (`S3Client.CleanupOldBackups`) -/

/-- What a `CleanupOldBackups` run did: the `DeleteFile` calls it issued in
order, the objects remaining afterwards, and its return value. -/
structure CleanupTrace where
  attempted : List String
  remaining : List String
  result    : Except String Unit
  deriving DecidableEq, Repr

/-- `CleanupOldBackups`: `objects` is the `ListFiles` result for the prefix
in the order returned by the object store (lexicographic by key).  When the
list size is within the retention count nothing happens; otherwise the first
`list − keep` objects are deleted one by one.  `deleteFails` injects
per-object deletion failures: a failed deletion is logged and skipped (the
object stays), and the run still returns success. -/
def cleanupOldBackups (objects : List String) (retentionCount : Nat)
    (deleteFails : String → Bool) : CleanupTrace :=
  if objects.length ≤ retentionCount then
    { attempted := [], remaining := objects, result := Except.ok () }
  else
    let objectsToDelete := objects.take (objects.length - retentionCount)
    { attempted := objectsToDelete
      remaining := objects.filter
        (fun k => !(objectsToDelete.contains k && !deleteFails k))
      result := Except.ok () }

/-! ### Scheduler fan-out (`createBackupJobsForAllEnabledInstances`) -/

/-- `PostgreSQLRepository.GetEnabled`: the rows of `postgresql_instances`
with `enabled = true` (the `ORDER BY name` clause fixes the iteration order
only and is immaterial to the properties proved here). -/
def getEnabled (instances : List PgInstance) : List PgInstance :=
  instances.filter (fun i => i.enabled)

/-- The database list used for one instance: its configured databases, or
`["postgres"]` when none are configured. -/
def schedDatabases (i : PgInstance) : List String :=
  if i.databases.isEmpty then ["postgres"] else i.databases

/-- `generateBackupID`-style id used by the scheduler:
`fmt.Sprintf("backup_%d", time.Now().UnixNano())`, with the nanosecond clock
modelled by the scheduler's tick counter. -/
def schedBackupId (t : Nat) : String := "backup_" ++ toString t

/-- The pending backup record the scheduler creates for one
(instance, database) pair at clock `t`. -/
def schedBackup (i : PgInstance) (dbName bt : String) (t : Nat) : BackupInfo :=
  { id := schedBackupId t
    postgresqlId := i.id
    databaseName := dbName
    backupType := bt
    status := BackupStatus.pending
    startTime := t
    endTime := none
    filePath := ""
    fileSize := 0
    jobId := ""
    s3Key := ""
    errorMessage := ""
    createdAt := t }

/-- The job literal the scheduler builds for one pair: type backup,
priority 7, max_retries 3, and the payload carrying the instance id, the
database name, the cadence and the created backup id.  Unset fields take
their Go zero values and are filled in by `AddJob`. -/
def schedJob (i : PgInstance) (dbName bt backupId : String) : Job :=
  { id := ""
    type := JobType.backup
    status := JobStatus.pending
    priority := 7
    payload :=
      { postgresId := some i.id
        databaseName := some dbName
        backupType := some bt
        backupId := some backupId }
    retryCount := 0
    maxRetries := 3
    createdAt := 0
    startedAt := none
    completedAt := none
    error := ""
    workerId := "" }

/-- `BackupRepository.Update`: the UPDATE writes only the status, end_time,
file_path, file_size, s3_key and error_message columns of the row with the
matching id (in particular `job_id` is not among the updated columns). -/
def applyBackupUpdate (row b : BackupInfo) : BackupInfo :=
  { row with
    status := b.status
    endTime := b.endTime
    filePath := b.filePath
    fileSize := b.fileSize
    s3Key := b.s3Key
    errorMessage := b.errorMessage }

/-- Effect of `BackupRepository.Update` on the `backups` table. -/
def updateBackupRow (l : List BackupInfo) (b : BackupInfo) : List BackupInfo :=
  l.map (fun row => if row.id = b.id then applyBackupUpdate row b else row)

/-- Scheduler-visible state: the queue (jobs table plus channel) and the
`backups` table. -/
structure SchedState where
  queue   : QueueState
  backups : List BackupInfo
  deriving Repr

/-- One scheduler run in progress: the state, the modelled nanosecond clock
(advanced by 2 per pair: one tick for the backup record, one for the job)
and the `jobsCreated` counter. -/
structure SchedRun where
  st    : SchedState
  clock : Nat
  count : Nat
  deriving Repr

/-- The loop body of `createBackupJobsForAllEnabledInstances` for one
(instance, database) pair: create the pending backup record (a failure skips
the pair), add the job via `AddJob` (a failure skips the rest of the
iteration, leaving the backup row behind), then re-write the backup record
with the job id attached — best effort — through `BackupRepository.Update`.
`createFails` / `updateFails` inject repository errors per pair. -/
def schedPair (bt : String) (createFails updateFails : String → String → Bool)
    (r : SchedRun) (p : PgInstance × String) : SchedRun :=
  let t := r.clock
  let backup := schedBackup p.1 p.2 bt t
  if createFails p.1.id p.2 then
    { r with clock := t + 2 }
  else
    let backups1 := r.st.backups ++ [backup]
    match addJob r.st.queue (schedJob p.1 p.2 bt backup.id)
        ("job_" ++ toString (t + 1)) (t + 1) none false with
    | (Except.error _, q') =>
      { st := { queue := q', backups := backups1 }, clock := t + 2, count := r.count }
    | (Except.ok job', q') =>
      let backup' := { backup with jobId := job'.id }
      let backups2 :=
        if updateFails p.1.id p.2 then backups1 else updateBackupRow backups1 backup'
      { st := { queue := q', backups := backups2 }, clock := t + 2, count := r.count + 1 }

/-- The (instance, database) pairs a tick iterates over: every enabled
instance crossed with its database list (with the `["postgres"]` default). -/
def schedPairs (instances : List PgInstance) : List (PgInstance × String) :=
  (getEnabled instances).flatMap (fun i => (schedDatabases i).map (fun d => (i, d)))

/-- `createBackupJobsForAllEnabledInstances`: one cadence tick. -/
def createBackupJobsForAllEnabledInstances (instances : List PgInstance)
    (bt : String) (createFails updateFails : String → String → Bool)
    (r : SchedRun) : SchedRun :=
  (schedPairs instances).foldl (schedPair bt createFails updateFails) r

/-- The per-pair correctness relation for one tick: the created backup row
and the enqueued job carry exactly the fields the scheduler sets. -/
def schedGood (bt : String) (x : BackupInfo × Job) (p : PgInstance × String) : Prop :=
  x.1.postgresqlId = p.1.id ∧ x.1.databaseName = p.2 ∧ x.1.backupType = bt ∧
  x.1.status = BackupStatus.pending ∧
  x.2.type = JobType.backup ∧ x.2.priority = 7 ∧ x.2.maxRetries = 3 ∧
  x.2.status = JobStatus.pending ∧
  x.2.payload =
    { postgresId := some p.1.id
      databaseName := some p.2
      backupType := some bt
      backupId := some x.1.id }

/-- The backup ids a run starting at clock `c` will generate for `n` pairs. -/
def genIds (c n : Nat) : List String :=
  match n with
  | 0 => []
  | Nat.succ m => schedBackupId c :: genIds (c + 2) m

/-! ### Cluster model for delivery multiplicity -/

/-- Point update of the jobs-table map (the effect of an UPDATE or INSERT of
the row with the given id). -/
def setRow (rows : String → Option JobRow) (id : String) (r : JobRow) :
    String → Option JobRow :=
  fun i => if i = id then some r else rows i

/-- Cross-process cluster state: the shared `jobs` table, one in-memory
channel with its capacity, and the current-job slot of every worker. -/
structure ClusterState where
  rows    : String → Option JobRow
  chan    : List String
  cap     : Nat
  workers : List (Option String)

/-- The interleaved atomic actions of the queue system. -/
inductive QEvent
  | addJob (row : JobRow)
  | loaderTick (id : String) (now : Nat)
  | workerTake (w : Nat)
  | workerFinish (w : Nat) (ok : Bool) (now : Nat)
  deriving DecidableEq, Repr

/-- Whether the event is a producer `AddJob` call (persist plus direct
in-memory hand-off). -/
def QEvent.viaAddJob : QEvent → Bool
  | .addJob _ => true
  | _ => false

/-- One atomic step of the cluster.
* `addJob row`: `AddJob` persists the row with pending status (an INSERT on
  an existing id fails and changes nothing) and then, non-blocking, hands the
  job to the channel when there is space.  No claim transition happens.
* `loaderTick id now`: one row iteration of `loadJobsFromDatabase` for an
  eligible row: run the conditional claim UPDATE; on zero affected rows skip;
  on success push into the channel, or roll the row back when the channel is
  full.
* `workerTake w`: an idle worker receives the next job from the channel and
  sets its current-job slot (`processJob` start writes nothing to the
  database).
* `workerFinish w ok now`: the handler returns; the worker clears its slot
  and `updateJobStatus` writes the terminal status computed in `processJob`. -/
def qStep (s : ClusterState) : QEvent → ClusterState
  | .addJob row =>
    match s.rows row.id with
    | some _ => s
    | none =>
      let row' := { row with status := JobStatus.pending, startedAt := none }
      let s1 := { s with rows := setRow s.rows row.id row' }
      if s1.chan.length < s1.cap then { s1 with chan := s1.chan ++ [row.id] } else s1
  | .loaderTick id now =>
    match s.rows id with
    | none => s
    | some row =>
      if loaderEligible now row then
        match claimJobUpdate now row with
        | none => s
        | some row' =>
          if s.chan.length < s.cap then
            { s with rows := setRow s.rows id row', chan := s.chan ++ [id] }
          else
            { s with rows :=
                setRow s.rows id { row' with status := JobStatus.pending, startedAt := none } }
      else s
  | .workerTake w =>
    match s.chan with
    | [] => s
    | id :: rest =>
      match s.workers.get? w with
      | some none => { s with chan := rest, workers := s.workers.set w (some id) }
      | _ => s
  | .workerFinish w ok now =>
    match s.workers.get? w with
    | some (some id) =>
      let s1 := { s with workers := s.workers.set w none }
      match s1.rows id with
      | none => s1
      | some row =>
        let rc := if ok then row.retryCount else row.retryCount + 1
        let st :=
          if ok then JobStatus.completed
          else if rc < row.maxRetries then JobStatus.retrying
          else JobStatus.failed
        { s1 with rows :=
            setRow s1.rows id { row with status := st, retryCount := rc, completedAt := some now } }
    | _ => s

/-- Run a sequence of atomic steps. -/
def qRun (s : ClusterState) (evs : List QEvent) : ClusterState :=
  evs.foldl qStep s

/-- Number of copies of the job in the channel. -/
def chanCount (s : ClusterState) (id : String) : Nat :=
  s.chan.countP (fun x => x == id)

/-- Number of workers whose current-job slot points at the job. -/
def holders (s : ClusterState) (id : String) : Nat :=
  s.workers.countP (fun slot => slot == some id)

/-- Number of in-flight copies of the job (channel plus workers). -/
def inFlight (s : ClusterState) (id : String) : Nat :=
  chanCount s id + holders s id

/-- Status of a job's row in the shared table. -/
def statusOf (s : ClusterState) (id : String) : Option JobStatus :=
  (s.rows id).map JobRow.status

/-- The delivery invariant of the loader-only system: every job has at most
one in-flight copy, and an in-flight copy implies the row is marked running. -/
def LoaderInv (s : ClusterState) : Prop :=
  ∀ id, inFlight s id ≤ 1 ∧
    (inFlight s id = 1 → statusOf s id = some JobStatus.running)

/-- A freshly started cluster: an arbitrary jobs table, an empty channel and
`nw` idle workers. -/
def mkCluster (rows0 : String → Option JobRow) (cap nw : Nat) : ClusterState :=
  { rows := rows0, chan := [], cap := cap, workers := List.replicate nw none }

/-! ### Concrete example inputs -/

/-- A jobs-table row in retrying state. -/
def exRetryingRow : JobRow :=
  { id := "job_1", type := JobType.backup, postgresId := "pg1", databaseName := "app",
    backupId := "b1", priority := 7, payloadCol := none, status := JobStatus.retrying,
    retryCount := 1, maxRetries := 3, createdAt := 0, startedAt := none,
    completedAt := none, errorMessage := "" }

/-- A jobs-table row stuck in running state since time 0. -/
def exStaleRunningRow : JobRow :=
  { exRetryingRow with id := "job_2", status := JobStatus.running, startedAt := some 0 }

/-- A pending jobs-table row as `AddJob` persists it. -/
def exPendingRow : JobRow :=
  { id := "j1", type := JobType.backup, postgresId := "pg1", databaseName := "app",
    backupId := "b1", priority := 7, payloadCol := none, status := JobStatus.pending,
    retryCount := 0, maxRetries := 3, createdAt := 0, startedAt := none,
    completedAt := none, errorMessage := "" }

/-- Two idle workers, empty channel, empty jobs table. -/
def exCluster : ClusterState :=
  { rows := fun _ => none, chan := [], cap := 1000, workers := [none, none] }

/-- AddJob hands job j1 to worker 0; the loader then re-claims the still
pending row and worker 1 receives the second copy. -/
def exDoubleDeliveryTrace : List QEvent :=
  [QEvent.addJob exPendingRow, QEvent.workerTake 0,
   QEvent.loaderTick "j1" 400, QEvent.workerTake 1]

/-- A payload referencing instance pg1, database app, manual cadence and an
existing backup b1. -/
def exBackupPayload : Payload :=
  { postgresId := some "pg1", databaseName := some "app",
    backupType := some "manual", backupId := some "b1" }

/-- A backup job as delivered to a worker. -/
def exBackupJob : Job :=
  { id := "job_1", type := JobType.backup, status := JobStatus.running, priority := 7,
    payload := exBackupPayload, retryCount := 0, maxRetries := 3, createdAt := 0,
    startedAt := some 50, completedAt := none, error := "", workerId := "worker-1" }

/-- The pending backup record b1 referenced by the job payloads. -/
def exPendingBackup : BackupInfo :=
  { id := "b1", postgresqlId := "pg1", databaseName := "app", backupType := "manual",
    status := BackupStatus.pending, startTime := 10, endTime := none, filePath := "",
    fileSize := 0, jobId := "", s3Key := "", errorMessage := "", createdAt := 10 }

/-- The registered instance pg1. -/
def exInstance : PgInstance :=
  { id := "pg1", name := "pg1", host := "db.example", port := 5432,
    username := "u", password := "s", databases := ["app"], enabled := true }

/-- An environment in which every external step of the backup pipeline
succeeds: the record b1 exists, the instance resolves, `pg_dump` exits 0 and
the dump file stats at 42 bytes. -/
def exHappyEnv : BackupJobEnv :=
  { now := 100, tempDirVar := "", existingBackup := some exPendingBackup,
    createOk := true, updateResults := [], pgInstance := some exInstance,
    mkdirOk := true, dumpError := none, statSize := some 42 }

/-- A restore job referencing backup b1 (a backup that is not completed). -/
def exRestoreJob : Job :=
  { id := "job_9", type := JobType.restore, status := JobStatus.running, priority := 5,
    payload :=
      { postgresId := some "pg1", databaseName := some "app_restored",
        backupType := none, backupId := some "b1" },
    retryCount := 0, maxRetries := 1, createdAt := 0, startedAt := some 60,
    completedAt := none, error := "", workerId := "worker-1" }

/-- A failing backup job on its first attempt (retry_count 0, max_retries 3). -/
def exFreshBackupJob : Job :=
  { exBackupJob with retryCount := 0, maxRetries := 3 }

/-- Scheduler fan-out scenario: enabled instance A with two databases,
enabled instance B with one, disabled instance C. -/
def exInstanceA : PgInstance :=
  { id := "A", name := "A", host := "a", port := 5432, username := "u",
    password := "s", databases := ["d1", "d2"], enabled := true }

/-- Second enabled instance of the fan-out scenario. -/
def exInstanceB : PgInstance :=
  { id := "B", name := "B", host := "b", port := 5432, username := "u",
    password := "s", databases := ["d1"], enabled := true }

/-- Disabled instance of the fan-out scenario. -/
def exInstanceC : PgInstance :=
  { id := "C", name := "C", host := "c", port := 5432, username := "u",
    password := "s", databases := ["dC"], enabled := false }

/-- The instance registry of the fan-out scenario. -/
def exRegistry : List PgInstance := [exInstanceA, exInstanceB, exInstanceC]

/-- An idle scheduler run over an empty system with channel capacity 1000. -/
def exSchedRun : SchedRun :=
  { st :=
      { queue := { dbJobs := [], chan := [], capacity := 1000, cancelled := false }
        backups := [] }
    clock := 0
    count := 0 }

/-- A queue whose channel is saturated (capacity 0 makes every send fail). -/
def exFullQueue : QueueState :=
  { dbJobs := [], chan := [], capacity := 0, cancelled := false }

end EvoBackup

namespace EvoBackup

/-! ### Theorems -/

/-- Claim C1: the database loader's SELECT observes rows in pending, retrying
or stale running state as eligible, but its single claim update only matches
rows whose status is still 'pending'; evaluated on a retrying row and on a
row stuck in running for more than 5 minutes, the update affects zero rows
and the loader skips the row instead of pushing it, on every tick — so such
jobs are never claimed or re-delivered, contradicting the claim. -/
theorem c1_loader_never_claims_nonpending :
    loaderEligible 1000 exRetryingRow = true ∧
    loaderEligible 1000 exStaleRunningRow = true ∧
    loaderProcessRow 1000 true exRetryingRow = LoaderOutcome.skipped ∧
    loaderProcessRow 1000 true exStaleRunningRow = LoaderOutcome.skipped ∧
    (∀ now r, (claimJobUpdate now r).isSome ↔ r.status = JobStatus.pending) := by
  refine ⟨by decide, by decide, by decide, by decide, ?_⟩
  intro now r
  by_cases h : r.status = JobStatus.pending <;> simp [claimJobUpdate, h]

/-- Claim C3: on a run in which `pg_dump` and the file stat both succeed, the
worker's backup handler returns success and marks the backup record completed
with its end time set — but the record's object-store key is still the empty
string, and the trace shows no object-store upload and no local-file
deletion, contradicting the claim that completion requires an uploaded
artifact and a set key. -/
theorem c3_completed_without_upload :
    (processBackupJob exBackupJob exHappyEnv).result = Except.ok () ∧
    ((processBackupJob exBackupJob exHappyEnv).backup.map BackupInfo.status)
      = some BackupStatus.completed ∧
    ((processBackupJob exBackupJob exHappyEnv).backup.map BackupInfo.s3Key) = some "" ∧
    ((processBackupJob exBackupJob exHappyEnv).backup.map BackupInfo.endTime)
      = some (some 100) ∧
    (processBackupJob exBackupJob exHappyEnv).uploads = [] ∧
    (processBackupJob exBackupJob exHappyEnv).localRemovals = [] := by
  decide

/-- Claim C4: the worker's restore handler, run on a restore job whose
referenced backup b1 is not completed, still returns success while fetching
no backup record, downloading nothing and never invoking `psql` — it is a
stub, contradicting the claimed fetch / completed-check / download / psql /
cleanup algorithm. -/
theorem c4_restore_handler_is_stub :
    exRestoreJob.payload.backupId = some exPendingBackup.id ∧
    exPendingBackup.status ≠ BackupStatus.completed ∧
    (processRestoreJob exRestoreJob).result = Except.ok () ∧
    (processRestoreJob exRestoreJob).backupFetches = [] ∧
    (processRestoreJob exRestoreJob).downloads = [] ∧
    (processRestoreJob exRestoreJob).psqlRuns = [] := by
  decide

/-- Claim C5: on a first failure of a job with max_retries 3 the worker
computes the status 'retrying' and writes it to the jobs table, but the
status CHECK constraint of schema_postgres.sql admits only pending, running,
completed, failed and cancelled — 'retrying' (admitted by the
migrate_add_jobs_table.sql variant) violates it, contradicting the claim
that every application-written status is admitted. -/
theorem c5_retrying_rejected_by_schema_check :
    (processJobOutcome exFreshBackupJob (some "pg_dump failed: exit status 1") 10).status
      = JobStatus.retrying ∧
    jobsStatusCheck JobStatus.retrying.toDb = false ∧
    jobsStatusCheckMigration JobStatus.retrying.toDb = true ∧
    jobsStatusCheck JobStatus.pending.toDb = true ∧
    jobsStatusCheck JobStatus.running.toDb = true ∧
    jobsStatusCheck JobStatus.completed.toDb = true ∧
    jobsStatusCheck JobStatus.failed.toDb = true := by
  decide

/-- Claim C6: when the handler returns an error the worker increments the
retry count and picks 'retrying' exactly when the incremented count is still
strictly below max_retries ('failed' otherwise); on success it picks
'completed'; in particular a restore job with max_retries 1 that fails once
is marked failed. -/
theorem c6_retry_decision (job : Job) (e : String) (now : Nat) :
    (processJobOutcome job (some e) now).retryCount = job.retryCount + 1 ∧
    (processJobOutcome job (some e) now).status =
      (if job.retryCount + 1 < job.maxRetries then JobStatus.retrying
       else JobStatus.failed) ∧
    (processJobOutcome job none now).status = JobStatus.completed ∧
    exRestoreJob.maxRetries = 1 ∧
    (processJobOutcome exRestoreJob (some e) now).status = JobStatus.failed := by
  refine ⟨?_, ?_, rfl, rfl, ?_⟩
  · unfold processJobOutcome
    dsimp only
    split <;> rfl
  · unfold processJobOutcome
    dsimp only
    split <;> rfl
  · simp [processJobOutcome, exRestoreJob]

/-- Claim C10: the job reconstructed by the database loader always carries
the constant backup_type "manual" and the backup_id column of the row,
independently of the payload column the job was originally stored with. -/
theorem c10_reload_payload_constant_manual (r : JobRow) (p : Option String) :
    (reconstructJob r).payload.backupType = some "manual" ∧
    (reconstructJob r).payload.backupId = some r.backupId ∧
    reconstructJob { r with payloadCol := p } = reconstructJob r :=
  ⟨rfl, rfl, rfl⟩

/-- Claim C7: when the local buffer is saturated and the queue is not
shutting down, `AddJob` returns the queue-full error, yet the job row has
already been inserted with status pending (before the channel attempt, which
left the channel unchanged), and the persisted row satisfies the polling
loader's eligibility condition. -/
theorem c7_persist_before_enqueue (q : QueueState) (job0 : Job) (genId : String)
    (now t : Nat) (chooseDone : Bool)
    (hfull : q.capacity ≤ q.chan.length) (hcancel : q.cancelled = false) :
    (addJob q job0 genId now none chooseDone).1 = Except.error AddJobError.queueFull ∧
    (addJob q job0 genId now none chooseDone).2.dbJobs
      = q.dbJobs ++ [persistRow (normalizeJob job0 genId now)] ∧
    (persistRow (normalizeJob job0 genId now)).status = JobStatus.pending ∧
    loaderEligible t (persistRow (normalizeJob job0 genId now)) = true ∧
    (addJob q job0 genId now none chooseDone).2.chan = q.chan := by
  have hlt : ¬ (q.chan.length < q.capacity) := not_lt.mpr hfull
  refine ⟨?_, ?_, rfl, rfl, ?_⟩ <;> simp [addJob, hlt, hcancel]

/-- Witness for C7 at a concrete saturated queue. -/
theorem c7_persist_before_enqueue_witness :
    (addJob exFullQueue exFreshBackupJob "job_7" 5 none false).1
      = Except.error AddJobError.queueFull ∧
    (addJob exFullQueue exFreshBackupJob "job_7" 5 none false).2.dbJobs
      = exFullQueue.dbJobs ++ [persistRow (normalizeJob exFreshBackupJob "job_7" 5)] ∧
    (persistRow (normalizeJob exFreshBackupJob "job_7" 5)).status = JobStatus.pending ∧
    loaderEligible 77 (persistRow (normalizeJob exFreshBackupJob "job_7" 5)) = true ∧
    (addJob exFullQueue exFreshBackupJob "job_7" 5 none false).2.chan = exFullQueue.chan :=
  c7_persist_before_enqueue exFullQueue exFreshBackupJob "job_7" 5 77 false
    (by decide) (by decide)

/-- Claim C9: a cleanup run over a listing within the retention count changes
nothing; otherwise exactly the first `list − keep` listed objects (the oldest
under any order in which the listing is sorted, in particular the
lexicographic key order the object store returns) are deleted, and per-object
deletion failures never make the run fail. -/
theorem c9_cleanup_retention (objects : List String) (keep : Nat)
    (deleteFails : String → Bool) :
    (objects.length ≤ keep →
      cleanupOldBackups objects keep deleteFails
        = { attempted := [], remaining := objects, result := Except.ok () }) ∧
    (keep < objects.length →
      (cleanupOldBackups objects keep deleteFails).attempted
        = objects.take (objects.length - keep) ∧
      (cleanupOldBackups objects keep deleteFails).attempted.length
        = objects.length - keep) ∧
    (cleanupOldBackups objects keep deleteFails).result = Except.ok () ∧
    (∀ rel : String → String → Prop, List.Pairwise rel objects →
      ∀ d ∈ (cleanupOldBackups objects keep deleteFails).attempted,
      ∀ kept ∈ objects.drop (objects.length - keep), rel d kept) := by
  refine ⟨?_, ?_, ?_, ?_⟩
  · intro h
    simp [cleanupOldBackups, h]
  · intro h
    have hn : ¬ objects.length ≤ keep := not_le.mpr h
    refine ⟨by simp [cleanupOldBackups, hn], ?_⟩
    simp [cleanupOldBackups, hn, List.length_take]
  · by_cases h : objects.length ≤ keep <;> simp [cleanupOldBackups, h]
  · intro rel hrel d hd kept hk
    by_cases h : objects.length ≤ keep
    · simp [cleanupOldBackups, h] at hd
    · simp only [cleanupOldBackups, if_neg h] at hd
      have hsplit := List.take_append_drop (objects.length - keep) objects
      rw [← hsplit] at hrel
      exact (List.pairwise_append.mp hrel).2.2 d hd kept hk

/-- Witness for C9: a three-object listing with retention 1 and a failing
first deletion still attempts exactly the two oldest objects and succeeds. -/
theorem c9_cleanup_retention_witness :
    (cleanupOldBackups ["a", "b", "c"] 1 (fun k => k == "a")).attempted
        = ["a", "b"] ∧
    (cleanupOldBackups ["a", "b", "c"] 1 (fun k => k == "a")).attempted.length = 2 ∧
    (cleanupOldBackups ["a", "b", "c"] 5 (fun k => k == "a")).remaining
        = ["a", "b", "c"] ∧
    (cleanupOldBackups ["a", "b", "c"] 1 (fun k => k == "a")).result = Except.ok () := by
  have h1 := (c9_cleanup_retention ["a", "b", "c"] 1 (fun k => k == "a")).2.1 (by decide)
  have h2 := (c9_cleanup_retention ["a", "b", "c"] 5 (fun k => k == "a")).1 (by decide)
  have h3 := (c9_cleanup_retention ["a", "b", "c"] 1 (fun k => k == "a")).2.2.1
  exact ⟨h1.1, by rw [h1.2]; rfl, by rw [h2], h3⟩



/-- Replacing the element at a valid index shifts `countP` by the difference
of the predicate on the old and new values. -/
theorem countP_set_eq {α : Type} (l : List α) (w : Nat) (a b : α) (p : α → Bool)
    (h : l.get? w = some b) :
    (l.set w a).countP p + (if p b then 1 else 0)
      = l.countP p + (if p a then 1 else 0) := by
  induction l generalizing w with
  | nil => simp at h
  | cons x xs ih =>
    cases w with
    | zero =>
      simp only [List.get?_cons_zero] at h
      injection h with h
      subst h
      simp only [List.set, List.countP_cons]
      omega
    | succ w =>
      simp only [List.get?_cons_succ] at h
      have hx := ih w h
      simp only [List.set, List.countP_cons]
      omega

/-- An element seen at a valid index contributes to a positive `countP`. -/
theorem countP_pos_of_get? {α : Type} (l : List α) (w : Nat) (b : α) (p : α → Bool)
    (h : l.get? w = some b) (hb : p b = true) : 1 ≤ l.countP p := by
  have hmem : b ∈ l := List.get?_mem h
  exact List.countP_pos_iff.mpr ⟨b, hmem, hb⟩

/-- A replicated list of idle slots holds no job. -/
theorem countP_replicate_none (n : Nat) (id : String) :
    (List.replicate n (none : Option String)).countP (fun slot => slot == some id) = 0 := by
  induction n with
  | zero => rfl
  | succ n ih => simp [List.replicate, List.countP_cons, ih]

/-- Appending one id to the channel raises that id's in-flight count by one
and leaves every other id's count unchanged; the rows map is irrelevant. -/
theorem inFlight_chan_append (s : ClusterState) (rows' : String → Option JobRow)
    (id id0 : String) :
    inFlight { s with rows := rows', chan := s.chan ++ [id] } id0
      = inFlight s id0 + (if id = id0 then 1 else 0) := by
  unfold inFlight chanCount holders
  dsimp only
  rw [List.countP_append]
  by_cases h : id = id0
  · subst h
    simp [List.countP_cons]
    omega
  · have hb : (id == id0) = false := by
      simp [h]
    simp [List.countP_cons, hb, h]

/-- Changing only the rows map leaves every in-flight count unchanged. -/
theorem inFlight_rows_update (s : ClusterState) (rows' : String → Option JobRow)
    (id0 : String) :
    inFlight { s with rows := rows' } id0 = inFlight s id0 := rfl

/-- Computation rule: none is never a held job. -/
theorem beq_none_some_str (b : String) : ((none : Option String) == some b) = false := rfl

/-- Computation rule: slot comparison reduces to id comparison. -/
theorem beq_some_some_str (a b : String) :
    ((some a : Option String) == some b) = (a == b) := rfl

/-- Point lookup after a point update at the same id. -/
theorem setRow_self (rows : String → Option JobRow) (id : String) (r : JobRow) :
    setRow rows id r id = some r := by
  simp [setRow]

/-- Point lookup after a point update at a different id. -/
theorem setRow_other (rows : String → Option JobRow) (id id0 : String) (r : JobRow)
    (h : id0 ≠ id) : setRow rows id r id0 = rows id0 := by
  simp [setRow, h]

/-- Filling an idle worker slot adds one holder of that id. -/
theorem holders_set_some (s : ClusterState) (w : Nat) (id id0 : String)
    (hw : s.workers.get? w = some none) :
    (s.workers.set w (some id)).countP (fun slot => slot == some id0)
      = s.workers.countP (fun slot => slot == some id0) + (if id = id0 then 1 else 0) := by
  have h := countP_set_eq s.workers w (some id) none (fun slot => slot == some id0) hw
  dsimp only at h
  rw [beq_none_some_str, beq_some_some_str] at h
  by_cases hid : id = id0
  · subst hid
    simpa using h
  · simpa [hid] using h

/-- Clearing a slot that holds `id` removes one holder of `id`. -/
theorem holders_set_none (s : ClusterState) (w : Nat) (id id0 : String)
    (hw : s.workers.get? w = some (some id)) :
    (s.workers.set w none).countP (fun slot => slot == some id0)
        + (if id = id0 then 1 else 0)
      = s.workers.countP (fun slot => slot == some id0) := by
  have h := countP_set_eq s.workers w none (some id) (fun slot => slot == some id0) hw
  dsimp only at h
  rw [beq_none_some_str, beq_some_some_str] at h
  by_cases hid : id = id0
  · subst hid
    simpa using h
  · simpa [hid] using h

/-- The loader-only delivery invariant is preserved by every atomic step
other than an `AddJob` hand-off. -/
theorem qStep_preserves (s : ClusterState) (e : QEvent)
    (he : e.viaAddJob = false) (hs : LoaderInv s) : LoaderInv (qStep s e) := by
  cases e with
  | addJob row => simp [QEvent.viaAddJob] at he
  | loaderTick id now =>
    simp only [qStep]
    split
    · exact hs
    · rename_i row hrow
      split
      · split
        · exact hs
        · rename_i row' hclaim
          have hpend : row.status = JobStatus.pending := by
            unfold claimJobUpdate at hclaim
            split at hclaim
            · assumption
            · exact absurd hclaim (by simp)
          have hrow' : row' =
              { row with status := JobStatus.running, startedAt := some now } := by
            unfold claimJobUpdate at hclaim
            rw [if_pos hpend] at hclaim
            injection hclaim with h
            exact h.symm
          have hzero : inFlight s id = 0 := by
            rcases hs id with ⟨hle, hone⟩
            by_cases h1 : inFlight s id = 1
            · have hst := hone h1
              rw [statusOf, hrow] at hst
              simp only [Option.map_some'] at hst
              injection hst with hst
              rw [hpend] at hst
              exact JobStatus.noConfusion hst
            · omega
          split
          · -- channel has space: push the claimed row
            intro id0
            rw [inFlight_chan_append s (setRow s.rows id row') id id0]
            by_cases hid : id = id0
            · subst hid
              refine ⟨by simp [hzero], ?_⟩
              intro _
              show (setRow s.rows id row' id).map JobRow.status = some JobStatus.running
              rw [setRow_self, hrow']
              rfl
            · rcases hs id0 with ⟨hle0, hone0⟩
              refine ⟨by simpa [hid] using hle0, ?_⟩
              intro hone'
              rw [if_neg hid] at hone'
              have hst := hone0 (by omega)
              show (setRow s.rows id row' id0).map JobRow.status = some JobStatus.running
              rw [setRow_other _ _ _ _ (Ne.symm hid)]
              exact hst
          · -- channel full: roll the row back, nothing enters the channel
            intro id0
            rw [inFlight_rows_update]
            by_cases hid : id0 = id
            · subst hid
              exact ⟨by omega, fun h1 => absurd h1 (by omega)⟩
            · rcases hs id0 with ⟨hle0, hone0⟩
              refine ⟨hle0, ?_⟩
              intro hone'
              have hst := hone0 hone'
              show (setRow s.rows id _ id0).map JobRow.status = some JobStatus.running
              rw [setRow_other _ _ _ _ hid]
              exact hst
      · exact hs
  | workerTake w =>
    simp only [qStep]
    split
    · exact hs
    · rename_i id rest hchan
      split
      · rename_i hw
        intro id0
        have hflight :
            inFlight { s with chan := rest, workers := s.workers.set w (some id) } id0
              = inFlight s id0 := by
          unfold inFlight chanCount holders
          dsimp only
          rw [hchan, List.countP_cons, holders_set_some s w id id0 hw]
          by_cases hid : id = id0
          · subst hid
            simp
            omega
          · simp [hid]
        rw [hflight]
        exact hs id0
      · exact hs
  | workerFinish w ok now =>
    simp only [qStep]
    split
    · rename_i id hw
      split
      · -- the row vanished: only the worker slot is cleared
        intro id0
        rcases hs id0 with ⟨hle0, hone0⟩
        have hflight :
            inFlight { s with workers := s.workers.set w none } id0 ≤ inFlight s id0 := by
          unfold inFlight chanCount holders
          dsimp only
          have h := holders_set_none s w id id0 hw
          omega
        refine ⟨by omega, ?_⟩
        intro h1
        exact hone0 (by omega)
      · rename_i row hrow
        intro id0
        rcases hs id0 with ⟨hle0, hone0⟩
        by_cases hid : id0 = id
        · subst hid
          have hpos : 1 ≤ holders s id0 := by
            apply countP_pos_of_get? s.workers w (some id0) _ hw
            simp
          have h := holders_set_none s w id0 id0 hw
          rw [if_pos rfl] at h
          constructor
          · unfold inFlight chanCount holders at hle0 ⊢
            dsimp only
            unfold holders at hpos
            omega
          · intro h1
            unfold inFlight chanCount holders at h1 hle0
            dsimp only at h1
            unfold holders at hpos
            omega
        · have h := holders_set_none s w id id0 hw
          rw [if_neg (fun hh => hid (Eq.symm hh))] at h
          have hflight :
              inFlight { s with
                  workers := s.workers.set w none
                  rows := setRow s.rows id
                    { row with
                      status := if ok then JobStatus.completed
                        else if (if ok then row.retryCount else row.retryCount + 1)
                              < row.maxRetries then JobStatus.retrying
                        else JobStatus.failed
                      retryCount := if ok then row.retryCount else row.retryCount + 1
                      completedAt := some now } } id0
                = inFlight s id0 := by
            unfold inFlight chanCount holders
            dsimp only
            omega
          rw [hflight]
          refine ⟨hle0, ?_⟩
          intro h1
          have hst := hone0 h1
          show (setRow s.rows id _ id0).map JobRow.status = some JobStatus.running
          rw [setRow_other _ _ _ _ hid]
          exact hst
    · exact hs

/-- A freshly started cluster satisfies the delivery invariant: the channel
is empty and every worker slot idle. -/
theorem mkCluster_inv (rows0 : String → Option JobRow) (cap nw : Nat) :
    LoaderInv (mkCluster rows0 cap nw) := by
  intro id
  have hh : holders (mkCluster rows0 cap nw) id = 0 := countP_replicate_none nw id
  have hc : chanCount (mkCluster rows0 cap nw) id = 0 := rfl
  unfold inFlight
  rw [hh, hc]
  exact ⟨by omega, fun h => absurd h (by omega)⟩

/-- The delivery invariant holds after any loader-only run. -/
theorem qRun_inv (s : ClusterState) (evs : List QEvent) (hs : LoaderInv s)
    (he : ∀ e ∈ evs, e.viaAddJob = false) : LoaderInv (qRun s evs) := by
  induction evs generalizing s with
  | nil => exact hs
  | cons e rest ih =>
    exact ih (qStep s e) (qStep_preserves s e (he e (by simp)) hs)
      (fun x hx => he x (by simp [hx]))

/-- Claim C2 counterexample: starting from an empty system with two idle
workers, `AddJob` persists job j1 as pending and hands it to worker 0
directly; because the worker writes nothing to the database at dispatch, the
next loader tick observes the row still pending, claims it and delivers a
second copy, which worker 1 picks up — two workers hold j1 at once, refuting
the at-most-one-executor claim. -/
theorem c2_counterexample :
    (qRun exCluster exDoubleDeliveryTrace).workers = [some "j1", some "j1"] ∧
    ¬ holders (qRun exCluster exDoubleDeliveryTrace) "j1" ≤ 1 := by
  decide

/-- Claim C2 (amended): in every run of the cluster in which jobs reach
workers only through the database loader's claim transition (no direct
`AddJob` hand-off events), every job is held by at most one worker at any
reachable instant; the direct in-memory hand-off of `AddJob` breaks this
because the handed-off row stays pending in the database until completion. -/
theorem c2_loader_only_single_executor (rows0 : String → Option JobRow)
    (cap nw : Nat) (evs : List QEvent)
    (he : ∀ e ∈ evs, e.viaAddJob = false) (id : String) :
    holders (qRun (mkCluster rows0 cap nw) evs) id ≤ 1 := by
  have hinv := qRun_inv (mkCluster rows0 cap nw) evs (mkCluster_inv rows0 cap nw) he
  have h := (hinv id).1
  unfold inFlight at h
  omega

/-- Witness for the amended C2 at a concrete loader-only run: one pending
row, one loader tick and one worker take. -/
theorem c2_loader_only_single_executor_witness :
    holders
      (qRun (mkCluster (fun i => if i = "j1" then some exPendingRow else none) 1000 2)
        [QEvent.loaderTick "j1" 0, QEvent.workerTake 0]) "j1" ≤ 1 :=
  c2_loader_only_single_executor (fun i => if i = "j1" then some exPendingRow else none)
    1000 2 [QEvent.loaderTick "j1" 0, QEvent.workerTake 0] (by decide) "j1"

/-- Success equation of `AddJob`: with space in the channel and no shutdown,
the normalized job is persisted and then appended to the channel. -/
theorem addJob_ok (q : QueueState) (job0 : Job) (genId : String) (now : Nat)
    (hspace : q.chan.length < q.capacity) (hcancel : q.cancelled = false) :
    addJob q job0 genId now none false =
      (Except.ok (normalizeJob job0 genId now),
       { q with
         dbJobs := q.dbJobs ++ [persistRow (normalizeJob job0 genId now)]
         chan := q.chan ++ [normalizeJob job0 genId now] }) := by
  simp [addJob, hspace, hcancel]

/-- `BackupRepository.Update` with the job id attached is invisible on the
table when the updated record was just appended and no earlier row shares its
id: the update rewrites only columns that still hold their created values. -/
theorem updateBackupRow_fresh (l : List BackupInfo) (backup : BackupInfo) (jid : String)
    (hfresh : ∀ x ∈ l, x.id ≠ backup.id) :
    updateBackupRow (l ++ [backup]) { backup with jobId := jid } = l ++ [backup] := by
  unfold updateBackupRow
  rw [List.map_append]
  have hl : l.map (fun row =>
      if row.id = ({ backup with jobId := jid } : BackupInfo).id then
        applyBackupUpdate row { backup with jobId := jid } else row) = l.map id := by
    apply List.map_congr_left
    intro x hx
    rw [if_neg (hfresh x hx)]
    rfl
  rw [hl, List.map_id]
  simp [applyBackupUpdate]

/-- Unfolding rule for the generated-id list. -/
theorem genIds_succ (c n : Nat) :
    genIds c (n + 1) = schedBackupId c :: genIds (c + 2) n := rfl

/-- One tick of the scheduler creates exactly one pending backup row and one
pending priority-7 backup job per (instance, database) pair, assuming no
repository error, enough channel capacity and fresh generated backup ids. -/
theorem schedRun_spec (bt : String) (cf uf : String → String → Bool)
    (pairs : List (PgInstance × String)) (r : SchedRun)
    (hcf : ∀ p ∈ pairs, cf p.1.id p.2 = false)
    (hcap : r.st.queue.chan.length + pairs.length ≤ r.st.queue.capacity)
    (hcancel : r.st.queue.cancelled = false)
    (hfresh : ∀ b ∈ r.st.backups, b.id ∉ genIds r.clock pairs.length)
    (hnodup : (genIds r.clock pairs.length).Nodup) :
    ∃ out : List (BackupInfo × Job),
      (pairs.foldl (schedPair bt cf uf) r).st.backups
        = r.st.backups ++ out.map Prod.fst ∧
      (pairs.foldl (schedPair bt cf uf) r).st.queue.chan
        = r.st.queue.chan ++ out.map Prod.snd ∧
      (pairs.foldl (schedPair bt cf uf) r).st.queue.dbJobs
        = r.st.queue.dbJobs ++ out.map (fun x => persistRow x.2) ∧
      (pairs.foldl (schedPair bt cf uf) r).count = r.count + pairs.length ∧
      List.Forall₂ (schedGood bt) out pairs := by
  induction pairs generalizing r with
  | nil => exact ⟨[], by simp, by simp, by simp, by simp, List.Forall₂.nil⟩
  | cons p ps ih =>
    have hgen : genIds r.clock (p :: ps).length
        = schedBackupId r.clock :: genIds (r.clock + 2) ps.length := rfl
    rw [hgen] at hfresh hnodup
    have hcf0 : cf p.1.id p.2 = false := hcf p (by simp)
    have hspace : r.st.queue.chan.length < r.st.queue.capacity := by
      simp only [List.length_cons] at hcap
      omega
    have hbfresh : ∀ x ∈ r.st.backups, x.id ≠ (schedBackup p.1 p.2 bt r.clock).id := by
      intro x hx hxid
      apply hfresh x hx
      rw [hxid]
      exact List.mem_cons_self _ _
    have hstep : schedPair bt cf uf r p =
        { st :=
            { queue :=
                { r.st.queue with
                  dbJobs := r.st.queue.dbJobs ++
                    [persistRow (normalizeJob
                      (schedJob p.1 p.2 bt (schedBackup p.1 p.2 bt r.clock).id)
                      ("job_" ++ toString (r.clock + 1)) (r.clock + 1))]
                  chan := r.st.queue.chan ++
                    [normalizeJob
                      (schedJob p.1 p.2 bt (schedBackup p.1 p.2 bt r.clock).id)
                      ("job_" ++ toString (r.clock + 1)) (r.clock + 1)] }
              backups := r.st.backups ++ [schedBackup p.1 p.2 bt r.clock] }
          clock := r.clock + 2
          count := r.count + 1 } := by
      unfold schedPair
      rw [hcf0]
      simp only [Bool.false_eq_true, if_false]
      rw [addJob_ok _ _ _ _ hspace hcancel]
      dsimp only
      rw [updateBackupRow_fresh _ _ _ hbfresh, ite_self]
    rw [List.foldl_cons, hstep]
    set r1 : SchedRun :=
        { st :=
            { queue :=
                { r.st.queue with
                  dbJobs := r.st.queue.dbJobs ++
                    [persistRow (normalizeJob
                      (schedJob p.1 p.2 bt (schedBackup p.1 p.2 bt r.clock).id)
                      ("job_" ++ toString (r.clock + 1)) (r.clock + 1))]
                  chan := r.st.queue.chan ++
                    [normalizeJob
                      (schedJob p.1 p.2 bt (schedBackup p.1 p.2 bt r.clock).id)
                      ("job_" ++ toString (r.clock + 1)) (r.clock + 1)] }
              backups := r.st.backups ++ [schedBackup p.1 p.2 bt r.clock] }
          clock := r.clock + 2
          count := r.count + 1 } with hr1
    have hcfN : ∀ q ∈ ps, cf q.1.id q.2 = false := fun q hq => hcf q (by simp [hq])
    have hcapN : r1.st.queue.chan.length + ps.length ≤ r1.st.queue.capacity := by
      rw [hr1]
      simp only [List.length_append, List.length_cons, List.length_nil]
      simp only [List.length_cons] at hcap
      omega
    have hcancelN : r1.st.queue.cancelled = false := by
      rw [hr1]
      exact hcancel
    have hfreshN : ∀ b ∈ r1.st.backups, b.id ∉ genIds r1.clock ps.length := by
      rw [hr1]
      intro b hb
      rcases List.mem_append.mp hb with hb1 | hb2
      · intro hmem
        exact hfresh b hb1 (List.mem_cons_of_mem _ hmem)
      · have hbeq : b = schedBackup p.1 p.2 bt r.clock := by
          simpa using hb2
        subst hbeq
        exact (List.nodup_cons.mp hnodup).1
    have hnodupN : (genIds r1.clock ps.length).Nodup := by
      rw [hr1]
      exact (List.nodup_cons.mp hnodup).2
    rcases ih r1 hcfN hcapN hcancelN hfreshN hnodupN with ⟨out, h1, h2, h3, h4, h5⟩
    refine ⟨(schedBackup p.1 p.2 bt r.clock,
      normalizeJob (schedJob p.1 p.2 bt (schedBackup p.1 p.2 bt r.clock).id)
        ("job_" ++ toString (r.clock + 1)) (r.clock + 1)) :: out, ?_, ?_, ?_, ?_, ?_⟩
    · rw [h1, hr1]
      simp
    · rw [h2, hr1]
      simp
    · rw [h3, hr1]
      simp
    · rw [h4, hr1]
      simp only [List.length_cons]
      omega
    · refine List.Forall₂.cons ?_ h5
      unfold schedGood normalizeJob schedJob schedBackup
      simp

/-- Claim C8: on a cadence tick (with no repository errors, enough channel
capacity and fresh generated ids) the scheduler creates, for every enabled
instance and every one of its databases (defaulting to postgres), exactly one
new pending backup row and one pending backup job — priority 7, max_retries
3, payload carrying the instance id, database, cadence and the new backup id
— and instances with enabled false contribute no pair at all (a registry of
only disabled instances leaves the whole state untouched). -/
theorem c8_scheduler_fanout (instances : List PgInstance) (bt : String)
    (cf uf : String → String → Bool) (r : SchedRun)
    (hcf : ∀ i d, cf i d = false)
    (hcap : r.st.queue.chan.length + (schedPairs instances).length
      ≤ r.st.queue.capacity)
    (hcancel : r.st.queue.cancelled = false)
    (hfresh : ∀ b ∈ r.st.backups, b.id ∉ genIds r.clock (schedPairs instances).length)
    (hnodup : (genIds r.clock (schedPairs instances).length).Nodup) :
    (∀ p ∈ schedPairs instances, p.1.enabled = true) ∧
    ((∀ i ∈ instances, i.enabled = false) →
      createBackupJobsForAllEnabledInstances instances bt cf uf r = r) ∧
    ∃ out : List (BackupInfo × Job),
      (createBackupJobsForAllEnabledInstances instances bt cf uf r).st.backups
        = r.st.backups ++ out.map Prod.fst ∧
      (createBackupJobsForAllEnabledInstances instances bt cf uf r).st.queue.chan
        = r.st.queue.chan ++ out.map Prod.snd ∧
      (createBackupJobsForAllEnabledInstances instances bt cf uf r).st.queue.dbJobs
        = r.st.queue.dbJobs ++ out.map (fun x => persistRow x.2) ∧
      (createBackupJobsForAllEnabledInstances instances bt cf uf r).count
        = r.count + (schedPairs instances).length ∧
      List.Forall₂ (schedGood bt) out (schedPairs instances) := by
  refine ⟨?_, ?_, ?_⟩
  · intro p hp
    unfold schedPairs getEnabled at hp
    rcases List.mem_flatMap.mp hp with ⟨i, hi, hmem⟩
    rcases List.mem_map.mp hmem with ⟨d, hd, hpd⟩
    have hen := (List.mem_filter.mp hi).2
    rw [← hpd]
    simpa using hen
  · intro hall
    have hpairs : schedPairs instances = [] := by
      unfold schedPairs getEnabled
      have : instances.filter (fun i => i.enabled) = [] := by
        rw [List.filter_eq_nil_iff]
        intro a ha
        simp [hall a ha]
      rw [this]
      rfl
    unfold createBackupJobsForAllEnabledInstances
    rw [hpairs]
    rfl
  · exact schedRun_spec bt cf uf (schedPairs instances) r
      (fun p _ => hcf p.1.id p.2) hcap hcancel hfresh hnodup

/-- Witness for C8: the two-enabled-one-disabled registry (A with d1 and d2,
B with d1, C disabled) on an hourly tick over an empty system. -/
theorem c8_scheduler_fanout_witness :
    (∀ p ∈ schedPairs exRegistry, p.1.enabled = true) ∧
    ((∀ i ∈ exRegistry, i.enabled = false) →
      createBackupJobsForAllEnabledInstances exRegistry "hourly"
        (fun _ _ => false) (fun _ _ => false) exSchedRun = exSchedRun) ∧
    ∃ out : List (BackupInfo × Job),
      (createBackupJobsForAllEnabledInstances exRegistry "hourly"
        (fun _ _ => false) (fun _ _ => false) exSchedRun).st.backups
        = exSchedRun.st.backups ++ out.map Prod.fst ∧
      (createBackupJobsForAllEnabledInstances exRegistry "hourly"
        (fun _ _ => false) (fun _ _ => false) exSchedRun).st.queue.chan
        = exSchedRun.st.queue.chan ++ out.map Prod.snd ∧
      (createBackupJobsForAllEnabledInstances exRegistry "hourly"
        (fun _ _ => false) (fun _ _ => false) exSchedRun).st.queue.dbJobs
        = exSchedRun.st.queue.dbJobs ++ out.map (fun x => persistRow x.2) ∧
      (createBackupJobsForAllEnabledInstances exRegistry "hourly"
        (fun _ _ => false) (fun _ _ => false) exSchedRun).count
        = exSchedRun.count + (schedPairs exRegistry).length ∧
      List.Forall₂ (schedGood "hourly") out (schedPairs exRegistry) :=
  c8_scheduler_fanout exRegistry "hourly" (fun _ _ => false) (fun _ _ => false)
    exSchedRun (fun _ _ => rfl) (by decide) rfl
    (fun b hb => absurd hb (List.not_mem_nil b)) (by decide)

end EvoBackup
